import Mathlib

/-!
Shallow embedding of `src/flask_djangoquery.py` (Flask-DjangoQuery 0.2.4).

The module translates Django-style keyword lookups (`blog__name__exact`)
into SQLAlchemy query operations.  We embed the translator itself:
queries are records accumulating joins, filters, ordering clauses and
eager-load options; SQLAlchemy column expressions are a symbolic
`Pred` type; Python runtime values are `PyVal`; fallible Python code
returns `Except Err` (exceptions) or `Option` (construction failures
such as arity errors surfacing as TypeError at the call site).
-/

namespace FlaskDjangoQuery

/-- Scalar Python runtime values. -/
inductive PyScalar where
  | none
  | int (n : Int)
  | str (s : String)
  | bool (b : Bool)
  deriving DecidableEq, Repr

/-- Python runtime values that appear as lookup values, option values
or attribute values in this module: scalars, and flat sequences of
scalars (sequences occur only as `in` / `range` operands). -/
inductive PyVal where
  | scalar (v : PyScalar)
  | list (xs : List PyScalar)
  deriving DecidableEq, Repr

/-- Shorthand constructors for common Python values. -/
abbrev pNone : PyVal := PyVal.scalar PyScalar.none

abbrev pInt (n : Int) : PyVal := PyVal.scalar (PyScalar.int n)

abbrev pStr (s : String) : PyVal := PyVal.scalar (PyScalar.str s)

abbrev pBool (b : Bool) : PyVal := PyVal.scalar (PyScalar.bool b)

/-- Python truthiness, as used by the `and` / `or` in the `isnull`
operator entry. -/
def truthy : PyVal → Bool
  | PyVal.scalar PyScalar.none => false
  | PyVal.scalar (PyScalar.int n) => n != 0
  | PyVal.scalar (PyScalar.str s) => s != ""
  | PyVal.scalar (PyScalar.bool b) => b
  | PyVal.list xs => !xs.isEmpty

/-- Embedding of `sqlalchemy.util.to_list` as composed with the `*`
splat at the single call site `op(column, *to_list(value))`:
`to_list(None)` returns `None` and splatting `None` raises TypeError,
modelled as `Option.none`; a list is returned as is; a string or any
other scalar is wrapped into a one-element list. -/
def toList : PyVal → Option (List PyVal)
  | PyVal.scalar PyScalar.none => Option.none
  | PyVal.list xs => some (xs.map PyVal.scalar)
  | v => some [v]

/-- Python `str.split('__')` specialized to the `'__'` separator used
throughout the source: left-to-right, non-overlapping occurrences,
and the empty string splits to one empty piece. -/
def splitDunder : List Char → List (List Char)
  | [] => [[]]
  | '_' :: '_' :: rest => [] :: splitDunder rest
  | c :: rest =>
    match splitDunder rest with
    | t :: ts => (c :: t) :: ts
    | [] => [[c]]

/-- String wrapper for `splitDunder`, i.e. `arg.split('__')`. -/
def pySplitDunder (s : String) : List String :=
  (splitDunder s.data).map (fun l => String.mk l)

/-- Python `column.replace('__', '.')` from `select_related`:
left-to-right, non-overlapping replacement of `'__'` by `'.'`. -/
def replaceDunderDot : List Char → List Char
  | [] => []
  | '_' :: '_' :: rest => '.' :: replaceDunderDot rest
  | c :: rest => c :: replaceDunderDot rest

/-- String wrapper for `replaceDunderDot`. -/
def rewriteDunderDot (s : String) : String :=
  String.mk (replaceDunderDot s.data)

/-- Python `x.replace('%', '%%')` used by `istartswith` / `iendswith`. -/
def escapePercent : List Char → List Char
  | [] => []
  | '%' :: rest => '%' :: '%' :: escapePercent rest
  | c :: rest => c :: escapePercent rest

/-- The mapper metadata the source reads through `inspection.inspect`
and `getattr`: for each entity name, its column names and its
relationship names with their target entity names.  Entities form a
directed, possibly cyclic graph. -/
structure Schema where
  columns : String → List String
  rels : String → List (String × String)

/-- A resolved class attribute: the `InstrumentedAttribute` returned
by `_entity_descriptor`, tagged by whether it is a plain column or a
relationship (the source distinguishes the two by
`column.impl.uses_objects`). -/
inductive Descriptor where
  | column (entity name : String)
  | relationship (entity name target : String)
  deriving DecidableEq, Repr

/-- Embedding of `column.impl.uses_objects`: true exactly for
relationship attributes. -/
def usesObjects : Descriptor → Bool
  | Descriptor.column _ _ => false
  | Descriptor.relationship _ _ _ => true

/-- The entity a join on the descriptor leads to. -/
def targetOf : Descriptor → String
  | Descriptor.relationship _ _ t => t
  | Descriptor.column e _ => e

/-- Python exceptions raised by the module. -/
inductive Err where
  | invalidRequest (entity key : String)
  | valueError (msg : String)
  | typeError (msg : String)
  | indexError
  deriving DecidableEq, Repr

/-- Embedding of `_entity_descriptor(entity, key)`: `getattr` on the
mapped class, failing with `InvalidRequestError` when the name is
neither a column nor a relationship of the entity. -/
def entity_descriptor (sc : Schema) (entity key : String) : Except Err Descriptor :=
  if key ∈ sc.columns entity then
    Except.ok (Descriptor.column entity key)
  else
    match (sc.rels entity).find? (fun p => p.1 == key) with
    | some p => Except.ok (Descriptor.relationship entity key p.2)
    | Option.none => Except.error (Err.invalidRequest entity key)

/-- Symbolic SQLAlchemy column expressions as built by the operator
table and the translators.  `hostBool` is a plain Python boolean that
reached `filter` (the `isnull` entry produces one); `isNull` /
`isNotNull` are genuine database null tests, never produced by the
source but needed to state what the documentation promises for
`isnull`.  `not` stands for Python `~` applied to the whole built
expression (SQL NOT on column expressions). -/
inductive Pred where
  | eq (c : Descriptor) (v : PyVal)
  | gt (c : Descriptor) (v : PyVal)
  | lt (c : Descriptor) (v : PyVal)
  | ge (c : Descriptor) (v : PyVal)
  | le (c : Descriptor) (v : PyVal)
  | containsOp (c : Descriptor) (v : PyVal)
  | inOp (c : Descriptor) (v : PyVal)
  | ilikeOp (c : Descriptor) (v : PyVal)
  | startswithOp (c : Descriptor) (v : PyVal)
  | endswithOp (c : Descriptor) (v : PyVal)
  | betweenOp (c : Descriptor) (lo hi : PyVal)
  | extractEq (part : String) (c : Descriptor) (v : PyVal)
  | isNull (c : Descriptor)
  | isNotNull (c : Descriptor)
  | hostBool (b : Bool)
  | not (p : Pred)
  deriving DecidableEq, Repr

/-- The source's `isnull` entry `lambda c, x: x and c is not None or c
is None`.  Here `c` is the column descriptor object, never the Python
`None`, so `c is not None` is `True` and `c is None` is `False`; by
Python `and` / `or` semantics the whole expression collapses to the
host boolean `truthy x`, evaluated at translation time. -/
def isnullCode (_c : Descriptor) (x : PyVal) : Pred :=
  Pred.hostBool (truthy x)

/-- Modelled from the spec: the operator-table row "isnull | boolean:
true implies column is null; false implies column is not null" — a
genuine database-side null test keyed off the boolean value.  The
source never builds this; it is the comparison point for that row. -/
def isnullSpec (c : Descriptor) (v : PyVal) : Pred :=
  if truthy v then Pred.isNull c else Pred.isNotNull c

/-- An operator entry: applied to the resolved column and the splatted
argument list `to_list(value)`; `Option.none` is a TypeError or
AttributeError raised while building the expression (wrong argument
count, `.replace` on a non-string). -/
abbrev OpFn := Descriptor → List PyVal → Option Pred

def op_gt : OpFn
  | c, [v] => some (Pred.gt c v)
  | _, _ => Option.none

def op_lt : OpFn
  | c, [v] => some (Pred.lt c v)
  | _, _ => Option.none

def op_gte : OpFn
  | c, [v] => some (Pred.ge c v)
  | _, _ => Option.none

def op_lte : OpFn
  | c, [v] => some (Pred.le c v)
  | _, _ => Option.none

def op_contains : OpFn
  | c, [v] => some (Pred.containsOp c v)
  | _, _ => Option.none

/-- Source `operators.in_op` is binary: `in_op(a, b) = a.in_(b)`.  The single
extra argument is the sequence operand. -/
def op_in : OpFn
  | c, [v] => some (Pred.inOp c v)
  | _, _ => Option.none

def op_exact : OpFn
  | c, [v] => some (Pred.eq c v)
  | _, _ => Option.none

def op_iexact : OpFn
  | c, [v] => some (Pred.ilikeOp c v)
  | _, _ => Option.none

def op_startswith : OpFn
  | c, [v] => some (Pred.startswithOp c v)
  | _, _ => Option.none

/-- Source `lambda c, x: c.ilike(x.replace('%', '%%') + '%')`; `x` must be a
string, else `.replace` raises AttributeError. -/
def op_istartswith : OpFn
  | c, [PyVal.scalar (PyScalar.str s)] =>
      some (Pred.ilikeOp c (pStr (String.mk (escapePercent s.data) ++ "%")))
  | _, _ => Option.none

/-- Source `lambda c, x: c.ilike('%' + x.replace('%', '%%'))`. -/
def op_iendswith : OpFn
  | c, [PyVal.scalar (PyScalar.str s)] =>
      some (Pred.ilikeOp c (pStr ("%" ++ String.mk (escapePercent s.data))))
  | _, _ => Option.none

def op_endswith : OpFn
  | c, [v] => some (Pred.endswithOp c v)
  | _, _ => Option.none

def op_isnull : OpFn
  | c, [x] => some (isnullCode c x)
  | _, _ => Option.none

/-- Source `operators.between_op` is ternary: `between_op(a, b, c) =
a.between(b, c)`. -/
def op_range : OpFn
  | c, [lo, hi] => some (Pred.betweenOp c lo hi)
  | _, _ => Option.none

def op_year : OpFn
  | c, [v] => some (Pred.extractEq ("year") c v)
  | _, _ => Option.none

def op_month : OpFn
  | c, [v] => some (Pred.extractEq ("month") c v)
  | _, _ => Option.none

def op_day : OpFn
  | c, [v] => some (Pred.extractEq ("day") c v)
  | _, _ => Option.none

/-- The `_underscore_operators` table, in source order. -/
def underscore_operators : List (String × OpFn) :=
  [("gt", op_gt), ("lt", op_lt), ("gte", op_gte), ("lte", op_lte),
   ("contains", op_contains), ("in", op_in), ("exact", op_exact),
   ("iexact", op_iexact), ("startswith", op_startswith),
   ("istartswith", op_istartswith), ("iendswith", op_iendswith),
   ("endswith", op_endswith), ("isnull", op_isnull), ("range", op_range),
   ("year", op_year), ("month", op_month), ("day", op_day)]

/-- Dictionary lookup `self._underscore_operators[token]`, with the
membership test `token in self._underscore_operators`. -/
def lookupOp (token : String) : Option OpFn :=
  (underscore_operators.find? (fun p => p.1 == token)).map (fun p => p.2)

/-- One element of the ordering clause: a column ascending, a column
descending (`column.desc()`), or a non-string argument passed through
`order_by` unchanged (modelled opaquely by a tag). -/
inductive OrderElem where
  | asc (c : Descriptor)
  | desc (c : Descriptor)
  | raw (tag : Nat)
  deriving DecidableEq, Repr

/-- An eager-load option attached by `select_related`:
`joinedload_all(*paths)` (full depth) or `joinedload(*paths)`
(shallow). -/
inductive EagerOpt where
  | joinedload_all (paths : List String)
  | joinedload (paths : List String)
  deriving DecidableEq, Repr

/-- The query state the module manipulates: base entity, current join
point (`_joinpoint_zero`), joins issued, filter predicates conjoined,
ordering clauses, and eager-load options. -/
structure Query where
  baseEntity : String
  joinpoint : Option String := Option.none
  joins : List Descriptor := []
  filters : List Pred := []
  orderClauses : List OrderElem := []
  opts : List EagerOpt := []
  deriving DecidableEq, Repr

/-- Embedding of `q._joinpoint_zero()`: the entity at the current join point, the
base entity when no join was issued or after `reset_joinpoint`. -/
def joinpointZero (q : Query) : String :=
  q.joinpoint.getD q.baseEntity

/-- Embedding of `q.join(column)`: records the join and moves the join point to the
relationship's target entity. -/
def joinQ (q : Query) (d : Descriptor) : Query :=
  { q with joins := q.joins ++ [d], joinpoint := some (targetOf d) }

/-- Embedding of `q.filter(expr)`: conjoins one more predicate. -/
def addFilter (q : Query) (p : Pred) : Query :=
  { q with filters := q.filters ++ [p] }

/-- Embedding of `q.reset_joinpoint()`. -/
def resetJoinpoint (q : Query) : Query :=
  { q with joinpoint := Option.none }

/-- The local `negate_if = lambda expr: expr if not negate else ~expr`. -/
def negate_if (negate : Bool) (expr : Pred) : Pred :=
  if negate then Pred.not expr else expr

/-- The inner token loop of `_filter_or_exclude` for one keyword
argument: walks the `__`-split tokens maintaining the current column
cell, joining through relationships, applying operator tokens as
filters, and failing on tokens that are neither. -/
def walkFilterTokens (sc : Schema) (negate : Bool) (value : PyVal) :
    List String → Query → Option Descriptor → Except Err (Query × Option Descriptor)
  | [], q, column => Except.ok (q, column)
  | token :: rest, q, column =>
    match column with
    | Option.none =>
      match entity_descriptor sc (joinpointZero q) token with
      | Except.error e => Except.error e
      | Except.ok d =>
        if usesObjects d then
          walkFilterTokens sc negate value rest (joinQ q d) Option.none
        else
          walkFilterTokens sc negate value rest q (some d)
    | some c =>
      match lookupOp token with
      | some op =>
        match toList value with
        | Option.none => Except.error (Err.typeError ("argument after * must be an iterable"))
        | some args =>
          match op c args with
          | Option.none => Except.error (Err.typeError ("operator argument mismatch"))
          | some p =>
            walkFilterTokens sc negate value rest (addFilter q (negate_if negate p)) Option.none
      | Option.none => Except.error (Err.valueError ("No idea what to do with " ++ token))

/-- The per-entry tail of `_filter_or_exclude`: after the token walk,
a still-set column defaults to an equality filter, then the join point
is reset. -/
def filterEntry (sc : Schema) (negate : Bool) (q : Query) (arg : String) (value : PyVal) :
    Except Err Query :=
  match walkFilterTokens sc negate value (pySplitDunder arg) q Option.none with
  | Except.error e => Except.error e
  | Except.ok (q1, some c) =>
    Except.ok (resetJoinpoint (addFilter q1 (negate_if negate (Pred.eq c value))))
  | Except.ok (q1, Option.none) => Except.ok (resetJoinpoint q1)

/-- Embedding of `_filter_or_exclude(self, negate, kwargs)`: folds the entries in
iteration order.  Keyword mappings are modelled as association lists
in insertion order. -/
def filter_or_exclude (sc : Schema) (negate : Bool) :
    List (String × PyVal) → Query → Except Err Query
  | [], q => Except.ok q
  | (arg, value) :: rest, q =>
    match filterEntry sc negate q arg value with
    | Except.error e => Except.error e
    | Except.ok q1 => filter_or_exclude sc negate rest q1

/-- Embedding of `filter_by(self, **kwargs)`. -/
def filter_by (sc : Schema) (q : Query) (kwargs : List (String × PyVal)) : Except Err Query :=
  filter_or_exclude sc false kwargs q

/-- Embedding of `exclude_by(self, **kwargs)`. -/
def exclude_by (sc : Schema) (q : Query) (kwargs : List (String × PyVal)) : Except Err Query :=
  filter_or_exclude sc true kwargs q

/-- One positional argument of `order_by`: a string path term, or a
non-string ordering expression that the source passes through
unchanged (`if not isinstance(arg, str): continue`), modelled
opaquely by a tag. -/
inductive OrderArg where
  | strArg (s : String)
  | exprArg (tag : Nat)
  deriving DecidableEq, Repr

/-- The inner token loop of `order_by` for one string term: every
token is resolved at the current join point; relationship tokens
join, are appended to `joins_needed` and clear the column cell,
column tokens overwrite it. -/
def walkOrderTokens (sc : Schema) :
    List String → Query → List Descriptor → Option Descriptor →
    Except Err (List Descriptor × Option Descriptor)
  | [], _q, joins, column => Except.ok (joins, column)
  | token :: rest, q, joins, _column =>
    match entity_descriptor sc (joinpointZero q) token with
    | Except.error e => Except.error e
    | Except.ok d =>
      if usesObjects d then
        walkOrderTokens sc rest (joinQ q d) (joins ++ [d]) Option.none
      else
        walkOrderTokens sc rest q joins (some d)

/-- Resolution of one string term of `order_by`: the leading-sign
check reads `arg[0]` (IndexError on the empty string), the remainder
is split on `__` and walked from a fresh copy of the base query; a
term whose walk does not end on a column raises ValueError. -/
def resolveOrderArg (sc : Schema) (self : Query) (arg : String) (joins : List Descriptor) :
    Except Err (List Descriptor × OrderElem) :=
  match arg.data with
  | [] => Except.error Err.indexError
  | c0 :: restChars =>
    let signed : Bool × String :=
      if c0 = '+' ∨ c0 = '-' then (c0 = '-', String.mk restChars) else (false, arg)
    match walkOrderTokens sc (pySplitDunder signed.2) self joins Option.none with
    | Except.error e => Except.error e
    | Except.ok (_, Option.none) =>
      Except.error (Err.valueError ("Tried to order by table, column expected"))
    | Except.ok (joins1, some c) =>
      Except.ok (joins1, if signed.1 then OrderElem.desc c else OrderElem.asc c)

/-- The argument loop of `order_by`: string terms are replaced by
their resolved ordering element, non-string terms are kept, and
`joins_needed` accumulates across all terms. -/
def resolveOrderArgs (sc : Schema) (self : Query) :
    List OrderArg → List Descriptor → List OrderElem →
    Except Err (List Descriptor × List OrderElem)
  | [], joins, acc => Except.ok (joins, acc)
  | OrderArg.exprArg n :: rest, joins, acc =>
    resolveOrderArgs sc self rest joins (acc ++ [OrderElem.raw n])
  | OrderArg.strArg s :: rest, joins, acc =>
    match resolveOrderArg sc self s joins with
    | Except.error e => Except.error e
    | Except.ok (joins1, elt) => resolveOrderArgs sc self rest joins1 (acc ++ [elt])

/-- Embedding of `order_by(self, *args)`: after resolving all terms against fresh
copies of `self`, the ordering clause is set on `self` via the
superclass `order_by`, and then every join collected in
`joins_needed` is issued on the result, in accumulation order. -/
def order_by (sc : Schema) (self : Query) (args : List OrderArg) : Except Err Query :=
  match resolveOrderArgs sc self args [] [] with
  | Except.error e => Except.error e
  | Except.ok (joinsNeeded, resolved) =>
    Except.ok (joinsNeeded.foldl joinQ
      { self with orderClauses := self.orderClauses ++ resolved })

/-- Python `depth in (None, 1)` under `==`, which identifies `True`
with `1` and `False` with `0`. -/
def depthIsNoneOr1 : PyVal → Bool
  | PyVal.scalar PyScalar.none => true
  | PyVal.scalar (PyScalar.int n) => n == 1
  | PyVal.scalar (PyScalar.bool b) => b
  | _ => false

/-- Embedding of `select_related(self, *columns, **options)`: pops `depth`
(default None), rejects any remaining option naming the first one,
rejects a depth other than None or 1, rewrites `__` to `.` in every
path, and attaches `joinedload_all` when `depth is None` or some
rewritten path contains a dot, else `joinedload`. -/
def select_related (self : Query) (columns : List String)
    (options : List (String × PyVal)) : Except Err Query :=
  let depth : PyVal :=
    (((options.find? (fun p => p.1 == "depth")).map (fun p => p.2)).getD pNone)
  match options.filter (fun p => p.1 != "depth") with
  | kv :: _ => Except.error (Err.typeError ("Unexpected argument " ++ kv.1))
  | [] =>
    if ¬ depthIsNoneOr1 depth then
      Except.error (Err.typeError ("Depth can only be 1 or None currently"))
    else
      let cols := columns.map rewriteDunderDot
      let needAll : Bool := (depth = pNone) || cols.any (fun c => c.data.contains '.')
      if needAll then
        Except.ok { self with opts := self.opts ++ [EagerOpt.joinedload_all cols] }
      else
        Except.ok { self with opts := self.opts ++ [EagerOpt.joinedload cols] }

/-- The slice of `sqlalchemy.orm.state.InstanceState` (reached through
`inspection.inspect`) that the serialization helpers read: the
mapper's declared column and relationship names, and the instance's
materialization bookkeeping. -/
structure InstanceState where
  columns : Finset String
  relationships : Finset String
  transient : Bool
  unloaded : Finset String
  expired : Bool
  expired_attributes : Finset String

/-- Embedding of `get_entity_propnames`: columns plus relationships of the mapper. -/
def get_entity_propnames (s : InstanceState) : Finset String :=
  s.columns ∪ s.relationships

/-- Embedding of `get_entity_loaded_propnames`: start from all declared names,
remove the unloaded ones unless the instance is transient, then add
back the expired ones when the instance is expired. -/
def get_entity_loaded_propnames (s : InstanceState) : Finset String :=
  let keynames := get_entity_propnames s
  let keynames := if !s.transient then keynames \ s.unloaded else keynames
  if s.expired then keynames ∪ s.expired_attributes else keynames

/-- An entity instance as the serialization code sees it: its
inspection state, normal attribute access (`getattr`), and the
class-level `__exclude_columns__` attribute when declared. -/
structure Instance where
  state : InstanceState
  attrValue : String → PyVal
  exclude_columns_attr : Option (List String)

/-- Embedding of `JSONSerializableBase.__json__(self, exclude_columns=set())`: the
dict comprehension, modelled as its set of name-value pairs. -/
def json_dict (o : Instance) (exclude_columns : Finset String) : Finset (String × PyVal) :=
  (get_entity_loaded_propnames o.state \ exclude_columns).image
    (fun name => (name, o.attrValue name))

/-- The key set of a dict. -/
def dictKeys (d : Finset (String × PyVal)) : Finset String :=
  d.image Prod.fst

/-- Embedding of `DynamicJSONEncoder.default` on an object with `__json__`: the
exclusion set is the class's `__exclude_columns__` when declared,
else empty; no per-call set exists at this call site. -/
def encoder_default (o : Instance) : Finset (String × PyVal) :=
  let exclude_columns : Finset String :=
    match o.exclude_columns_attr with
    | some l => l.toFinset
    | Option.none => ∅
  json_dict o exclude_columns

/-- Modelled from the spec: the serialization-view key set with the
exclusion set taken as the union of the per-call set and the
per-class default, as section 4.7 words it.  The comparison point for
the claim about `to_mapping` / `__json__`. -/
def to_mapping_keys_spec (o : Instance) (exclude : Finset String) : Finset String :=
  get_entity_loaded_propnames o.state \
    (exclude ∪ (match o.exclude_columns_attr with
      | some l => l.toFinset
      | Option.none => ∅))

/-- A concrete schema for witnesses: entity Post with columns id,
name, pub_date and relationship blog to entity Blog with columns
name, title. -/
def demoSchema : Schema where
  columns := fun e =>
    if e = "Post" then ["id", "name", "pub_date"]
    else if e = "Blog" then ["name", "title"]
    else []
  rels := fun e => if e = "Post" then [("blog", "Blog")] else []

/-- A fresh query over Post. -/
def q0 : Query := { baseEntity := "Post" }

/-- An instance over a class declaring properties a, b with
`__exclude_columns__ = ['b']`; transient, so both are loaded. -/
def c4Inst : Instance :=
  { state := { columns := {"a", "b"}, relationships := ∅, transient := true,
               unloaded := ∅, expired := false, expired_attributes := ∅ },
    attrValue := fun _ => pNone,
    exclude_columns_attr := some ["b"] }

/-- The query produced by ordering Post by blog name ascending and
blog title descending: the blog join is collected once per term. -/
def c7Result : Query :=
  { baseEntity := "Post", joinpoint := some ("Blog"),
    joins := [Descriptor.relationship ("Post") ("blog") ("Blog"),
              Descriptor.relationship ("Post") ("blog") ("Blog")],
    filters := [],
    orderClauses := [OrderElem.asc (Descriptor.column ("Blog") ("name")),
                     OrderElem.desc (Descriptor.column ("Blog") ("title"))],
    opts := [] }

/-- Folding joins over a query only appends to its join list and
moves the join point; ordering clauses and filters are untouched. -/
theorem foldl_joinQ_fields (ds : List Descriptor) (q : Query) :
    (ds.foldl joinQ q).joins = q.joins ++ ds ∧
    (ds.foldl joinQ q).orderClauses = q.orderClauses ∧
    (ds.foldl joinQ q).filters = q.filters := by
  induction ds generalizing q with
  | nil => simp
  | cons d ds ih =>
    rcases ih (joinQ q d) with ⟨h1, h2, h3⟩
    refine ⟨?_, ?_, ?_⟩
    · rw [List.foldl_cons, h1]; simp [joinQ]
    · rw [List.foldl_cons, h2]; simp [joinQ]
    · rw [List.foldl_cons, h3]; simp [joinQ]

/-- C1: for every registered operator name, translating a lookup key
`col__op` applies exactly that operator's constructor to the resolved
column and the coerced value, wrapping the whole built predicate in a
single NOT when negate is true; a key that ends on a resolved column
with no operator suffix defaults to an equality predicate, negated
the same way. -/
theorem c1_operator_translation (sc : Schema) (q : Query) (colName opName : String)
    (v : PyVal) (opf : OpFn) (args : List PyVal) (p : Pred) (negate : Bool)
    (hsplit : pySplitDunder (colName ++ "__" ++ opName) = [colName, opName])
    (hsplitc : pySplitDunder colName = [colName])
    (hcol : colName ∈ sc.columns (joinpointZero q))
    (hop : lookupOp opName = some opf)
    (hargs : toList v = some args)
    (hp : opf (Descriptor.column (joinpointZero q) colName) args = some p) :
    filter_or_exclude sc negate [(colName ++ "__" ++ opName, v)] q =
      Except.ok { q with
        filters := q.filters ++ [if negate then Pred.not p else p],
        joinpoint := Option.none } ∧
    filter_or_exclude sc negate [(colName, v)] q =
      Except.ok { q with
        filters := q.filters ++
          [if negate then Pred.not (Pred.eq (Descriptor.column (joinpointZero q) colName) v)
           else Pred.eq (Descriptor.column (joinpointZero q) colName) v],
        joinpoint := Option.none } := by
  constructor
  · simp [filter_or_exclude, filterEntry, hsplit, walkFilterTokens, entity_descriptor,
          hcol, usesObjects, hop, hargs, hp, addFilter, resetJoinpoint, negate_if]
  · simp [filter_or_exclude, filterEntry, hsplitc, walkFilterTokens, entity_descriptor,
          hcol, usesObjects, addFilter, resetJoinpoint, negate_if]

/-- C1 witness: excluding by id__gt=5 on Post filters on the single
NOT of the gt predicate. -/
theorem c1_witness :
    filter_or_exclude demoSchema true [("id__gt", pInt 5)] q0 =
      Except.ok { q0 with
        filters := [Pred.not (Pred.gt (Descriptor.column ("Post") ("id")) (pInt 5))],
        joinpoint := Option.none } := by
  have h := (c1_operator_translation demoSchema q0 ("id") ("gt") (pInt 5) op_gt [pInt 5]
    (Pred.gt (Descriptor.column ("Post") ("id")) (pInt 5)) true
    (by decide) (by decide) (by decide) rfl rfl rfl).1
  exact h

/-- C2 counterexample: a filter lookup whose path ends on a
relationship raises nothing; the query comes back with the join
issued and no predicate added. -/
theorem c2_counterexample :
    filter_by demoSchema q0 [("blog", pInt 7)] =
      Except.ok { q0 with joins := [Descriptor.relationship ("Post") ("blog") ("Blog")] } := rfl

/-- C2 amended: when path resolution ends on a relationship with no
terminal column and no operator, order_by raises the ValueError, but
filter and exclude silently drop the lookup: they return a query with
the join applied and no filter. -/
theorem c2_amended (sc : Schema) (self : Query) (relName tgt : String) (v : PyVal)
    (negate : Bool) (c0 : Char) (restChars : List Char)
    (hchars : relName.data = c0 :: restChars)
    (hsign : c0 ≠ '+' ∧ c0 ≠ '-')
    (hsplit : pySplitDunder relName = [relName])
    (hnotcol : relName ∉ sc.columns (joinpointZero self))
    (hrel : (sc.rels (joinpointZero self)).find? (fun p => p.1 == relName) =
      some (relName, tgt)) :
    order_by sc self [OrderArg.strArg relName] =
      Except.error (Err.valueError ("Tried to order by table, column expected")) ∧
    filter_or_exclude sc negate [(relName, v)] self =
      Except.ok { self with
        joins := self.joins ++ [Descriptor.relationship (joinpointZero self) relName tgt],
        joinpoint := Option.none } := by
  constructor
  · simp [order_by, resolveOrderArgs, resolveOrderArg, hchars, hsign.1, hsign.2, hsplit,
          walkOrderTokens, entity_descriptor, hnotcol, hrel, usesObjects]
  · simp [filter_or_exclude, filterEntry, hsplit, walkFilterTokens, entity_descriptor,
          hnotcol, hrel, usesObjects, joinQ, resetJoinpoint]

/-- C2 witness: ordering Post by the bare relationship blog raises,
while filtering Post by the bare relationship blog joins silently. -/
theorem c2_witness :
    order_by demoSchema q0 [OrderArg.strArg ("blog")] =
      Except.error (Err.valueError ("Tried to order by table, column expected")) ∧
    filter_or_exclude demoSchema false [("blog", pInt 7)] q0 =
      Except.ok { q0 with
        joins := [Descriptor.relationship ("Post") ("blog") ("Blog")],
        joinpoint := Option.none } := by
  have h := c2_amended demoSchema q0 ("blog") ("Blog") (pInt 7) false 'b'
    ['l', 'o', 'g'] (by decide) (by decide) (by decide) (by decide) (by decide)
  exact h

/-- C3: the loaded property names are the declared set (columns with
relationships), minus the unloaded names when the instance is not
transient, plus the expired names when the instance is expired; for a
transient instance whose expired names are among the declared ones
the result is the full declared set. -/
theorem c3_loaded_propnames (s : InstanceState) :
    (get_entity_loaded_propnames s =
      ((s.columns ∪ s.relationships) \ (if s.transient then ∅ else s.unloaded)) ∪
        (if s.expired then s.expired_attributes else ∅)) ∧
    (s.transient = true → s.expired_attributes ⊆ s.columns ∪ s.relationships →
      get_entity_loaded_propnames s = s.columns ∪ s.relationships) := by
  constructor
  · unfold get_entity_loaded_propnames get_entity_propnames
    rcases hs : s.transient <;> rcases he : s.expired <;> simp [hs, he]
  · intro ht hsub
    unfold get_entity_loaded_propnames get_entity_propnames
    rcases he : s.expired <;> simp [ht, he, Finset.union_eq_left.mpr hsub]

/-- C3 witness: a transient instance with declared names id, name
keeps both regardless of unloaded and expired bookkeeping. -/
theorem c3_witness :
    get_entity_loaded_propnames
      { columns := {"id", "name"}, relationships := ∅, transient := true,
        unloaded := {"name"}, expired := true, expired_attributes := {"id"} } =
      {"id", "name"} := by
  have h := (c3_loaded_propnames
    { columns := {"id", "name"}, relationships := ∅, transient := true,
      unloaded := {"name"}, expired := true, expired_attributes := {"id"} }).2
    rfl (by decide)
  simpa using h

/-- C4 counterexample: with per-class default exclusion b and
per-call exclusion a, a direct `__json__` call still emits b, so the
key set is not the loaded set minus the union of the two sets. -/
theorem c4_counterexample :
    dictKeys (json_dict c4Inst {"a"}) ≠ to_mapping_keys_spec c4Inst {"a"} := by decide

/-- C4 amended: the key set is exactly the loaded set minus the
exclusion set actually passed: a direct `__json__` call uses only the
per-call set, with the class default not consulted, and the encoder
passes exactly the class default (empty when undeclared) with no
per-call set; the two are never unioned. -/
theorem c4_amended (o : Instance) (exclude : Finset String) :
    dictKeys (json_dict o exclude) = get_entity_loaded_propnames o.state \ exclude ∧
    encoder_default o =
      json_dict o (match o.exclude_columns_attr with
        | some l => l.toFinset
        | Option.none => ∅) := by
  refine ⟨?_, rfl⟩
  simp only [dictKeys, json_dict, Finset.image_image]
  have hcomp : (Prod.fst ∘ fun name : String => (name, o.attrValue name)) = id := rfl
  rw [hcomp, Finset.image_id]

/-- C5: the registered isnull entry evaluates Python truthiness of
the value at translation time and filters on a host boolean; the
genuine IS NULL and IS NOT NULL predicates described by the operator
table are never built. -/
theorem c5_isnull_hostbool :
    filter_by demoSchema q0 [("pub_date__isnull", pBool true)] =
      Except.ok { q0 with filters := [Pred.hostBool true] } ∧
    filter_by demoSchema q0 [("pub_date__isnull", pBool false)] =
      Except.ok { q0 with filters := [Pred.hostBool false] } ∧
    isnullSpec (Descriptor.column ("Post") ("pub_date")) (pBool true) =
      Pred.isNull (Descriptor.column ("Post") ("pub_date")) ∧
    isnullSpec (Descriptor.column ("Post") ("pub_date")) (pBool false) =
      Pred.isNotNull (Descriptor.column ("Post") ("pub_date")) ∧
    Pred.hostBool true ≠ Pred.isNull (Descriptor.column ("Post") ("pub_date")) :=
  ⟨rfl, rfl, rfl, rfl, by decide⟩

/-- C6: to_list wraps a scalar and passes a sequence through, and the
splat hands the sequence elements to the constructor positionally;
since in_op is binary, id__in=[1,2,3] raises a TypeError instead of
building the membership predicate, which only arises when the
constructor receives the sequence as its single operand; range, being
ternary, does accept a two-element sequence. -/
theorem c6_in_splat :
    toList (PyVal.list [PyScalar.int 1, PyScalar.int 2, PyScalar.int 3]) =
      some [pInt 1, pInt 2, pInt 3] ∧
    toList (pInt 5) = some [pInt 5] ∧
    filter_by demoSchema q0
        [("id__in", PyVal.list [PyScalar.int 1, PyScalar.int 2, PyScalar.int 3])] =
      Except.error (Err.typeError ("operator argument mismatch")) ∧
    filter_by demoSchema q0 [("id__in", pInt 5)] =
      Except.ok { q0 with filters := [Pred.inOp (Descriptor.column ("Post") ("id")) (pInt 5)] } ∧
    op_in (Descriptor.column ("Post") ("id"))
        [PyVal.list [PyScalar.int 1, PyScalar.int 2, PyScalar.int 3]] =
      some (Pred.inOp (Descriptor.column ("Post") ("id"))
        (PyVal.list [PyScalar.int 1, PyScalar.int 2, PyScalar.int 3])) ∧
    filter_by demoSchema q0 [("pub_date__range", PyVal.list [PyScalar.int 1, PyScalar.int 2])] =
      Except.ok { q0 with
        filters := [Pred.betweenOp (Descriptor.column ("Post") ("pub_date")) (pInt 1) (pInt 2)] } :=
  ⟨rfl, rfl, rfl, rfl, rfl, rfl⟩

/-- C7 counterexample: two order terms through the same relationship
collect two copies of the join, so the applied descriptors are not
duplicate-free as the claim requires. -/
theorem c7_counterexample :
    order_by demoSchema q0 [OrderArg.strArg ("blog__name"), OrderArg.strArg ("-blog__title")] =
      Except.ok c7Result ∧ ¬ c7Result.joins.Nodup :=
  ⟨rfl, by decide⟩

/-- C7 amended: all joins discovered while resolving order terms are
applied once per call, after the ordering clause is set, in discovery
order, one join per discovery with duplicates retained across terms. -/
theorem c7_amended (sc : Schema) (self : Query) (args : List OrderArg)
    (joins : List Descriptor) (resolved : List OrderElem)
    (h : resolveOrderArgs sc self args [] [] = Except.ok (joins, resolved)) :
    ∃ q1, order_by sc self args = Except.ok q1 ∧
      q1.joins = self.joins ++ joins ∧
      q1.orderClauses = self.orderClauses ++ resolved ∧
      q1.filters = self.filters := by
  refine ⟨joins.foldl joinQ { self with orderClauses := self.orderClauses ++ resolved },
    ?_, ?_, ?_, ?_⟩
  · unfold order_by; rw [h]
  · exact (foldl_joinQ_fields joins _).1
  · rw [(foldl_joinQ_fields joins _).2.1]
  · exact (foldl_joinQ_fields joins _).2.2

/-- C7 witness: ordering Post by blog name and blog title applies the
blog join twice, after both ordering clauses. -/
theorem c7_witness :
    ∃ q1, order_by demoSchema q0
        [OrderArg.strArg ("blog__name"), OrderArg.strArg ("-blog__title")] =
        Except.ok q1 ∧
      q1.joins = q0.joins ++ [Descriptor.relationship ("Post") ("blog") ("Blog"),
                              Descriptor.relationship ("Post") ("blog") ("Blog")] ∧
      q1.orderClauses = q0.orderClauses ++
        [OrderElem.asc (Descriptor.column ("Blog") ("name")),
         OrderElem.desc (Descriptor.column ("Blog") ("title"))] ∧
      q1.filters = q0.filters :=
  c7_amended demoSchema q0
    [OrderArg.strArg ("blog__name"), OrderArg.strArg ("-blog__title")]
    [Descriptor.relationship ("Post") ("blog") ("Blog"),
     Descriptor.relationship ("Post") ("blog") ("Blog")]
    [OrderElem.asc (Descriptor.column ("Blog") ("name")),
     OrderElem.desc (Descriptor.column ("Blog") ("title"))] rfl

/-- C8: select_related rejects a leftover option naming the first
offending key, rejects a depth that is neither None nor 1, and
otherwise rewrites the dunder paths and attaches full-depth eager
loading when depth is None or some rewritten path is multi-level,
shallow eager loading when depth is 1 and no path is multi-level. -/
theorem c8_select_related (self : Query) (cols : List String)
    (options : List (String × PyVal)) (k : String) (val : PyVal)
    (restOpts : List (String × PyVal)) (d : PyVal) :
    (options.filter (fun p => p.1 != "depth") = (k, val) :: restOpts →
      select_related self cols options =
        Except.error (Err.typeError ("Unexpected argument " ++ k))) ∧
    (depthIsNoneOr1 d = false →
      select_related self cols [("depth", d)] =
        Except.error (Err.typeError ("Depth can only be 1 or None currently"))) ∧
    (select_related self cols [] =
      Except.ok { self with
        opts := self.opts ++ [EagerOpt.joinedload_all (cols.map rewriteDunderDot)] }) ∧
    ((∀ x ∈ cols, '.' ∉ (rewriteDunderDot x).data) →
      select_related self cols [("depth", pInt 1)] =
        Except.ok { self with
          opts := self.opts ++ [EagerOpt.joinedload (cols.map rewriteDunderDot)] }) ∧
    ((∃ x ∈ cols, '.' ∈ (rewriteDunderDot x).data) →
      select_related self cols [("depth", pInt 1)] =
        Except.ok { self with
          opts := self.opts ++ [EagerOpt.joinedload_all (cols.map rewriteDunderDot)] }) := by
  refine ⟨?_, ?_, ?_, ?_, ?_⟩
  · intro hfilter
    simp [select_related, hfilter]
  · intro hd
    simp [select_related, List.filter, List.find?, hd]
  · simp [select_related, depthIsNoneOr1]
  · intro hnone
    simp [select_related, List.filter, List.find?, depthIsNoneOr1]
    exact hnone
  · intro hsome
    simp [select_related, List.filter, List.find?, depthIsNoneOr1]
    exact hsome

/-- C8 witness: concrete select_related calls exercising each branch. -/
theorem c8_witness :
    select_related q0 ["a"] [("foo", pInt 1)] =
      Except.error (Err.typeError ("Unexpected argument foo")) ∧
    select_related q0 [] [("depth", pInt 2)] =
      Except.error (Err.typeError ("Depth can only be 1 or None currently")) ∧
    select_related q0 ["comments"] [] =
      Except.ok { q0 with opts := [EagerOpt.joinedload_all ["comments"]] } ∧
    select_related q0 ["comments"] [("depth", pInt 1)] =
      Except.ok { q0 with opts := [EagerOpt.joinedload ["comments"]] } ∧
    select_related q0 ["blog__name"] [("depth", pInt 1)] =
      Except.ok { q0 with opts := [EagerOpt.joinedload_all ["blog.name"]] } := by
  refine ⟨?_, ?_, ?_, ?_, ?_⟩
  · exact (c8_select_related q0 ["a"] [("foo", pInt 1)] ("foo") (pInt 1) [] pNone).1
      (by decide)
  · exact (c8_select_related q0 [] [] ("") pNone [] (pInt 2)).2.1 (by decide)
  · exact (c8_select_related q0 ["comments"] [] ("") pNone [] pNone).2.2.1
  · exact (c8_select_related q0 ["comments"] [] ("") pNone [] pNone).2.2.2.1 (by decide)
  · exact (c8_select_related q0 ["blog__name"] [] ("") pNone [] pNone).2.2.2.2 (by decide)

/-- C9: filter_by and exclude_by with an empty lookup mapping return
the query unchanged: no predicate, no join, no join-point reset. -/
theorem c9_empty_kwargs (sc : Schema) (q : Query) :
    filter_by sc q [] = Except.ok q ∧ exclude_by sc q [] = Except.ok q :=
  ⟨rfl, rfl⟩

/-- C10: order_by given the empty string as a term raises IndexError
from the leading-sign check before any ordering is produced; it is
never a no-op or an ascending key. -/
theorem c10_empty_order_term (sc : Schema) (self : Query) (rest : List OrderArg) :
    order_by sc self (OrderArg.strArg ("") :: rest) = Except.error Err.indexError := rfl

end FlaskDjangoQuery
